import Mathlib

/-
Shallow embedding of the PumpGuardAi repository (train_model.py and app.py).

Sensor readings and class probabilities are modelled as rationals; Python
strings are Lean strings, with case folding via Char.toLower / Char.toUpper
(the labels and column names in play are ASCII).  Fallible code is modelled
with Except / Option.
-/

set_option maxHeartbeats 1000000

/-- Lowercased character list of a string, modelling Python str.lower. -/
def lowerChars (s : String) : List Char := s.toList.map Char.toLower

/-- startsWithList n h is true when n is an initial segment of h. -/
def startsWithList : List Char → List Char → Bool
  | [], _ => true
  | _ :: _, [] => false
  | a :: as, b :: bs => a == b && startsWithList as bs

/-- containsList n h is true when n occurs contiguously inside h,
modelling the Python string operator `in`. -/
def containsList (n : List Char) : List Char → Bool
  | [] => startsWithList n []
  | b :: hs => startsWithList n (b :: hs) || containsList n hs

/-- Pass-1 predicate of detect_column: `c.lower() == col.lower()`. -/
def eqMatch (c col : String) : Bool := lowerChars c == lowerChars col

/-- Pass-2 predicate of detect_column: `c.lower() in col.lower()`. -/
def subMatch (c col : String) : Bool := containsList (lowerChars c) (lowerChars col)

/-- Inner loop of detect_column: scan the columns in order and return the
first one matching candidate c under predicate p. -/
def findCol (p : String → String → Bool) (c : String) : List String → Option String
  | [] => none
  | col :: cols => if p c col then some col else findCol p c cols

/-- Outer loop of one pass of detect_column: scan candidates in order,
returning the first column found for the earliest matching candidate. -/
def passLoop (p : String → String → Bool) (cols : List String) : List String → Option String
  | [] => none
  | c :: cs =>
    match findCol p c cols with
    | some col => some col
    | none => passLoop p cols cs

/-- detect_column(cols, candidates) from train_model.py: exact
case-insensitive pass first, then a substring-containment pass. -/
def detect_column (cols candidates : List String) : Option String :=
  match passLoop eqMatch cols candidates with
  | some col => some col
  | none => passLoop subMatch cols candidates

/-- The column detector as described by spec section 4.1, for the refinement
check of C2: within each pass the first candidate (in its given order) that
matches any column wins, ties among columns broken by column order, exact
case-insensitive equality in pass 1, substring containment in pass 2. -/
def detectColumnSpec (cols candidates : List String) : Option String :=
  match candidates.findSome? fun c => cols.find? fun col => eqMatch c col with
  | some col => some col
  | none => candidates.findSome? fun c => cols.find? fun col => subMatch c col

def COMMON_VIB : List String := ["vibration", "vib", "vibration_mm_s"]

def COMMON_TEMP : List String := ["temperature", "temp", "temp_c"]

def COMMON_CURR : List String := ["current", "motor_current", "amps"]

def COMMON_LABEL : List String := ["label", "status", "health", "class"]

/-- The per-row severity score of the label synthesizer in load_and_prepare:
+1 for each exceeded threshold among vibration > 6, temperature > 70,
current > 12. -/
def severityScore (v t c : ℚ) : Nat :=
  (if v > 6 then 1 else 0) + (if t > 70 then 1 else 0) + (if c > 12 then 1 else 0)

/-- The synthesized label of load_and_prepare when no label column was
detected: CRITICAL when the score is at least 2, WARNING when it is 1,
HEALTHY otherwise. -/
def synthLabel (v t c : ℚ) : String :=
  if severityScore v t c ≥ 2 then "CRITICAL"
  else if severityScore v t c = 1 then "WARNING"
  else "HEALTHY"

/-- Uppercased copy of a string, modelling the pandas .str.upper()
case-normalization (character-wise case mapping). -/
def strUpper (s : String) : String := ⟨s.toList.map Char.toUpper⟩

/-- Label canonicalization of load_and_prepare when a label column is
present: uppercase, then the fixed synonym replacement table. -/
def canonLabel (s : String) : String :=
  let u := strUpper s
  if u = "OK" then "HEALTHY"
  else if u = "GOOD" then "HEALTHY"
  else if u = "BAD" then "CRITICAL"
  else if u = "FAIL" then "CRITICAL"
  else u

/-- load_and_prepare from train_model.py, at the level of column detection
and label preparation.  A CSV is modelled by its column-name list, its
numeric feature rows (after extraction), and a lookup giving the stringified
values of a named column.  Returns the feature rows and the prepared label
series, or the configuration error raised when a numeric column is
undetectable. -/
def load_and_prepare (cols : List String) (rows : List (ℚ × ℚ × ℚ))
    (colVals : String → List String) :
    Except String (List (ℚ × ℚ × ℚ) × List String) :=
  let vib := detect_column cols COMMON_VIB
  let temp := detect_column cols COMMON_TEMP
  let curr := detect_column cols COMMON_CURR
  let label := detect_column cols COMMON_LABEL
  if vib.isNone || temp.isNone || curr.isNone then
    Except.error "Could not detect vibration/temp/current columns"
  else
    match label with
    | none => Except.ok (rows, rows.map fun r => synthLabel r.1 r.2.1 r.2.2)
    | some lc => Except.ok (rows, (colVals lc).map canonLabel)

/-- label_map from train(): the literal {"HEALTHY":0,"WARNING":1,"CRITICAL":2},
as a lookup (none for a key outside the dict). -/
def label_map (s : String) : Option Nat :=
  if s = "HEALTHY" then some 0
  else if s = "WARNING" then some 1
  else if s = "CRITICAL" then some 2
  else none

/-- The label-encoding step of train(): `y.map(label_map)`.  Pandas maps a
value absent from the dict to a missing value, modelled as none; no error is
raised at this step. -/
def trainEncodeLabels (ys : List String) : List (Option Nat) := ys.map label_map

/-- inv_label_map from app.py: the dict-comprehension inverse of the
persisted label_map. -/
def inv_label_map (n : Nat) : Option String :=
  if n = 0 then some "HEALTHY"
  else if n = 1 then some "WARNING"
  else if n = 2 then some "CRITICAL"
  else none

/-- np.argmax over a probability list: index of the first occurrence of the
maximum (np.argmax replaces the running best only on a strictly greater
value). -/
def argmaxList : List ℚ → Nat
  | [] => 0
  | [_] => 0
  | x :: y :: ys =>
    if x < (y :: ys).getD (argmaxList (y :: ys)) 0 then argmaxList (y :: ys) + 1 else 0

/-- Maximum of a nonempty list, modelling Python max(proba). -/
def listMax : List ℚ → ℚ
  | [] => 0
  | x :: xs => xs.foldl max x

/-- The risk score of the analyze block in app.py:
`float(proba[2]) if len(proba) > 2 else float(max(proba))`. -/
def riskScore (proba : List ℚ) : ℚ :=
  if 2 < proba.length then proba.getD 2 0 else listMax proba

/-- The predicted status of the analyze block in app.py:
`inv_label_map[int(np.argmax(proba))]` (none models a KeyError). -/
def predictedStatus (proba : List ℚ) : Option String :=
  inv_label_map (argmaxList proba)

/-- The fixed fallback text returned by generate_hypothesis when the
GEMINI_API_KEY environment variable is absent. -/
def noKeyFallback : String :=
  "⚠ Gemini API key missing.\nFallback hypothesis:\n- High vibration → misalignment or bearing wear\n- High temperature → lubrication or cooling issue\n- High current → overload or electrical fault"

/-- The text returned by the except-branch of generate_hypothesis when the
service call raises: it embeds the error message, then a static one-line
fallback. -/
def errorFallback (e : String) : String :=
  "⚠ Gemini Error: " ++ e ++ "\n\nFallback hypothesis:\n- Inspect bearings, lubrication, cooling, and electrical load."

/-- generate_hypothesis from app.py.  The external service interaction
(prompt construction, call, response-shape probing) is abstracted as an
Except value: ok t is the text the probing extracted, error e is a raised
exception caught by the except-branch. -/
def generate_hypothesis (apiKey : Option String) (service : Except String String) : String :=
  match apiKey with
  | none => noKeyFallback
  | some _ =>
    match service with
    | Except.ok t => t
    | Except.error e => errorFallback e

/-- One record of the in-memory history of app.py. -/
structure HistoryRecord where
  timestamp : Nat
  vibration : ℚ
  temperature : ℚ
  current : ℚ
  status : String
  risk : ℚ
  hypothesis : String
deriving DecidableEq

/-- add_history from app.py: append one record at the end. -/
def add_history (hist : List HistoryRecord) (r : HistoryRecord) : List HistoryRecord :=
  hist ++ [r]

/-- clear_history from app.py: reset the history to the empty sequence. -/
def clear_history (_ : List HistoryRecord) : List HistoryRecord := []

/-- The column names of the frame built by history_df: the seven record
fields, plus a derived time column when the history is nonempty (the empty
branch returns a frame with exactly the seven columns). -/
def historyColumns (hist : List HistoryRecord) : List String :=
  if hist.isEmpty then
    ["timestamp", "vibration", "temperature", "current", "status", "risk", "hypothesis"]
  else
    ["timestamp", "vibration", "temperature", "current", "status", "risk", "hypothesis", "time"]

/-- CSV export of the history frame (df.to_csv without the index): the
header row of column names followed by one cell row per record.  Cell
serialization of a record is a parameter; it plays no role on an empty
history. -/
def exportCsvRows (hist : List HistoryRecord)
    (rowCells : HistoryRecord → List String) : List (List String) :=
  historyColumns hist :: hist.map rowCells

/-- The analyze block of app.py, from a computed probability vector to the
new history: predicted status via inv_label_map of the argmax (none models
the KeyError on a missing index), risk via riskScore, hypothesis via
generate_hypothesis, then add_history. -/
def analyzeStep (proba : List ℚ) (apiKey : Option String)
    (service : Except String String) (now : Nat) (v t c : ℚ)
    (hist : List HistoryRecord) : Option (List HistoryRecord) :=
  match inv_label_map (argmaxList proba) with
  | none => none
  | some status =>
    some (add_history hist
      { timestamp := now, vibration := v, temperature := t, current := c,
        status := status, risk := riskScore proba,
        hypothesis := generate_hypothesis apiKey service })

/-! ## Helper lemmas -/

theorem findCol_eq_find? (p : String → String → Bool) (c : String) :
    ∀ cols : List String, findCol p c cols = cols.find? (p c) := by
  intro cols
  induction cols with
  | nil => rfl
  | cons col cols ih =>
    by_cases h : p c col = true
    · simp [findCol, List.find?_cons, h]
    · simp only [findCol, List.find?_cons, h, if_neg]
      simp only [Bool.not_eq_true] at h
      simp [h, ih]

theorem passLoop_eq_findSome? (p : String → String → Bool) (cols : List String) :
    ∀ cs : List String,
      passLoop p cols cs = cs.findSome? fun c => cols.find? (p c) := by
  intro cs
  induction cs with
  | nil => rfl
  | cons c cs ih =>
    simp only [passLoop, findCol_eq_find?, List.findSome?_cons]
    cases h : cols.find? (p c) <;> simp [h, ih]

theorem startsWithList_iff (n : List Char) :
    ∀ h : List Char, startsWithList n h = true ↔ ∃ r, h = n ++ r := by
  induction n with
  | nil => intro h; simp [startsWithList]
  | cons a as ih =>
    intro h
    cases h with
    | nil =>
      simp [startsWithList]
    | cons b bs =>
      simp only [startsWithList, Bool.and_eq_true, beq_iff_eq, ih bs,
        List.cons_append, List.cons.injEq]
      constructor
      · rintro ⟨rfl, r, rfl⟩
        exact ⟨r, rfl, rfl⟩
      · rintro ⟨r, rfl, rfl⟩
        exact ⟨rfl, r, rfl⟩

theorem containsList_iff (n : List Char) :
    ∀ h : List Char, containsList n h = true ↔ ∃ l r, h = l ++ n ++ r := by
  intro h
  induction h with
  | nil =>
    cases n with
    | nil =>
      constructor
      · intro _; exact ⟨[], [], rfl⟩
      · intro _; rfl
    | cons a as =>
      constructor
      · intro hx; simp [containsList, startsWithList] at hx
      · rintro ⟨l, r, hr⟩
        cases l <;> simp_all
  | cons b hs ih =>
    simp only [containsList, Bool.or_eq_true, startsWithList_iff, ih]
    constructor
    · rintro (⟨r, hr⟩ | ⟨l, r, hr⟩)
      · exact ⟨[], r, by simpa using hr⟩
      · exact ⟨b :: l, r, by simp [hr]⟩
    · rintro ⟨l, r, hr⟩
      cases l with
      | nil => exact Or.inl ⟨r, by simpa using hr⟩
      | cons x xs =>
        refine Or.inr ⟨xs, r, ?_⟩
        have := (List.cons.injEq b hs x (xs ++ n ++ r)).mp (by simpa using hr)
        exact this.2

theorem argmaxList_lt_length : ∀ l : List ℚ, l ≠ [] → argmaxList l < l.length := by
  intro l
  induction l with
  | nil => intro hne; exact absurd rfl hne
  | cons x xs ih =>
    intro _
    cases xs with
    | nil => simp [argmaxList]
    | cons y ys =>
      have h := ih (by simp)
      simp only [argmaxList]
      split
      · simpa [List.length_cons] using Nat.succ_lt_succ h
      · simp

theorem le_getD_argmaxList : ∀ (l : List ℚ) (x : ℚ), x ∈ l → x ≤ l.getD (argmaxList l) 0 := by
  intro l
  induction l with
  | nil => intro x hx; cases hx
  | cons a xs ih =>
    intro x hx
    cases xs with
    | nil =>
      have hxa : x = a := by simpa using hx
      simp [argmaxList, hxa]
    | cons y ys =>
      simp only [argmaxList]
      by_cases hlt : a < (y :: ys).getD (argmaxList (y :: ys)) 0
      · rw [if_pos hlt]
        rw [List.getD_cons_succ]
        rcases List.mem_cons.mp hx with rfl | hx2
        · exact le_of_lt hlt
        · exact ih x hx2
      · rw [if_neg hlt]
        rw [List.getD_cons_zero]
        rcases List.mem_cons.mp hx with rfl | hx2
        · exact le_refl x
        · exact le_trans (ih x hx2) (not_lt.mp hlt)

/-! ## Claim theorems -/

/-- C1: label synthesis is a deterministic, row-independent, total function of
one row.  The severity score counts exceeded thresholds among v > 6, t > 70,
c > 12, the label is HEALTHY at score 0, WARNING at score 1, CRITICAL at
score 2 or more, and (7,30,5) yields WARNING, (7,80,5) yields CRITICAL,
(1,1,1) yields HEALTHY. -/
theorem C1_label_synthesis :
    (∀ v t c : ℚ,
      severityScore v t c =
        (if 6 < v then 1 else 0) + (if 70 < t then 1 else 0) + (if 12 < c then 1 else 0) ∧
      synthLabel v t c =
        (if severityScore v t c = 0 then "HEALTHY"
         else if severityScore v t c = 1 then "WARNING"
         else "CRITICAL")) ∧
    synthLabel 7 30 5 = "WARNING" ∧
    synthLabel 7 80 5 = "CRITICAL" ∧
    synthLabel 1 1 1 = "HEALTHY" := by
  refine ⟨fun v t c => ⟨rfl, ?_⟩, by decide, by decide, by decide⟩
  by_cases h2 : severityScore v t c ≥ 2
  · have h0 : ¬ severityScore v t c = 0 := by omega
    have h1 : ¬ severityScore v t c = 1 := by omega
    simp [synthLabel, h2, h0, h1]
  · by_cases h1 : severityScore v t c = 1
    · simp [synthLabel, h2, h1]
    · have h0 : severityScore v t c = 0 := by omega
      simp [synthLabel, h2, h1, h0]

/-- C2: detect_column is the two-pass case-insensitive matcher of spec 4.1:
it agrees everywhere with the pass-1-then-pass-2, first-candidate-wins,
first-column-tie-break formulation, where the pass-1 predicate is exactly
case-insensitive equality and the pass-2 predicate is exactly containment of
the lowercased candidate inside the lowercased column name. -/
theorem C2_detect_column :
    (∀ cols candidates : List String,
      detect_column cols candidates = detectColumnSpec cols candidates) ∧
    (∀ c col : String, eqMatch c col = true ↔ lowerChars c = lowerChars col) ∧
    (∀ c col : String, subMatch c col = true ↔
      ∃ l r, lowerChars col = l ++ lowerChars c ++ r) := by
  refine ⟨fun cols cands => ?_, fun c col => ?_, fun c col => ?_⟩
  · unfold detect_column detectColumnSpec
    rw [passLoop_eq_findSome?, passLoop_eq_findSome?]
  · simp [eqMatch]
  · simp [subMatch, containsList_iff]

/-- C6: the persisted label map and its app-side inverse are mutual inverses
on the three labels: mapping each index 0, 1, 2 through inv_label_map and
back through label_map is the identity, and mapping each of HEALTHY,
WARNING, CRITICAL through label_map and back through inv_label_map is the
identity. -/
theorem C6_label_map_roundtrip :
    ((inv_label_map 0).bind label_map = some 0 ∧
     (inv_label_map 1).bind label_map = some 1 ∧
     (inv_label_map 2).bind label_map = some 2) ∧
    ((label_map "HEALTHY").bind inv_label_map = some "HEALTHY" ∧
     (label_map "WARNING").bind inv_label_map = some "WARNING" ∧
     (label_map "CRITICAL").bind inv_label_map = some "CRITICAL") := by
  decide

/-- C8: clearing the history always yields the empty record sequence, and
the CSV export of an empty history is exactly one header row listing
timestamp, vibration, temperature, current, status, risk, hypothesis, with
no data rows. -/
theorem C8_history_clear_export :
    (∀ hist : List HistoryRecord, clear_history hist = []) ∧
    (∀ rowCells : HistoryRecord → List String,
      exportCsvRows [] rowCells =
        [["timestamp", "vibration", "temperature", "current", "status", "risk", "hypothesis"]]) :=
  ⟨fun _ => rfl, fun _ => rfl⟩

/-- C9: every synthesized label is HEALTHY, WARNING or CRITICAL, so encoding
a synthesized label series through label_map is total: it never produces a
missing value for any row. -/
theorem C9_synth_labels_total :
    (∀ v t c : ℚ, (label_map (synthLabel v t c)).isSome = true) ∧
    (∀ rows : List (ℚ × ℚ × ℚ),
      (trainEncodeLabels (rows.map fun r => synthLabel r.1 r.2.1 r.2.2)).all
        Option.isSome = true) := by
  have key : ∀ v t c : ℚ, (label_map (synthLabel v t c)).isSome = true := by
    intro v t c
    unfold synthLabel
    split
    · decide
    · split
      · decide
      · decide
  refine ⟨key, fun rows => ?_⟩
  rw [List.all_eq_true]
  intro o ho
  simp only [trainEncodeLabels, List.map_map, List.mem_map, Function.comp] at ho
  obtain ⟨r, _, rfl⟩ := ho
  exact key r.1 r.2.1 r.2.2

/-- C3: the predictor takes the class of maximum probability as the
predicted status (the probability at the argmax position dominates every
entry, and predictedStatus is the inverse label map at that position), and
the risk score is the probability mass at the index the persisted label map
assigns to CRITICAL whenever the probability vector has more than two
entries, falling back to the maximum probability otherwise. -/
theorem C3_predictor :
    (∀ (proba : List ℚ) (x : ℚ), x ∈ proba → x ≤ proba.getD (argmaxList proba) 0) ∧
    (∀ proba : List ℚ, 2 < proba.length →
      label_map "CRITICAL" = some 2 ∧ riskScore proba = proba.getD 2 0) ∧
    (∀ proba : List ℚ, ¬ 2 < proba.length → riskScore proba = listMax proba) ∧
    predictedStatus [1/10, 2/10, 7/10] = some "CRITICAL" ∧
    riskScore [1/10, 2/10, 7/10] = 7/10 := by
  refine ⟨le_getD_argmaxList, fun proba h => ⟨rfl, ?_⟩, fun proba h => ?_, ?_, ?_⟩
  · simp [riskScore, h]
  · simp [riskScore, h]
  · norm_num [predictedStatus, argmaxList, inv_label_map]
  · norm_num [riskScore]

/-- Witness for C3 at the concrete probability vectors [1/10, 2/10, 7/10]
and [1/10, 2/10]. -/
theorem C3_predictor_witness :
    ((2 : ℚ)/10 ≤ ([1/10, 2/10, 7/10] : List ℚ).getD (argmaxList [1/10, 2/10, 7/10]) 0) ∧
    (label_map "CRITICAL" = some 2 ∧
      riskScore [1/10, 2/10, 7/10] = ([1/10, 2/10, 7/10] : List ℚ).getD 2 0) ∧
    riskScore [1/10, 2/10] = listMax [1/10, 2/10] :=
  ⟨C3_predictor.1 [1/10, 2/10, 7/10] (2/10)
      (List.mem_cons_of_mem _ (List.mem_cons_self _ _)),
   C3_predictor.2.1 [1/10, 2/10, 7/10] (by simp),
   C3_predictor.2.2.1 [1/10, 2/10] (by simp)⟩

/-- A hypothetical persisted label map assigning CRITICAL the index 0 and
HEALTHY the index 2, used to show that the risk computation of app.py is
positional rather than metadata-driven. -/
def swappedLabelMap (s : String) : Option Nat :=
  if s = "HEALTHY" then some 2
  else if s = "WARNING" then some 1
  else if s = "CRITICAL" then some 0
  else none

/-- C10: on a probability vector with more than two entries the risk score
is the component at the fixed position 2, whatever the persisted label map
says; under the trainer's map that position is CRITICAL's, while under a
label map sending CRITICAL to 0 the risk differs from the CRITICAL-class
probability and instead equals the probability of the class that map sends
to 2. -/
theorem C10_risk_positional :
    (∀ proba : List ℚ, 2 < proba.length → riskScore proba = proba.getD 2 0) ∧
    (label_map "CRITICAL" = some 2 ∧
      riskScore [7/10, 2/10, 1/10] = ([7/10, 2/10, 1/10] : List ℚ).getD 2 0) ∧
    (swappedLabelMap "CRITICAL" = some 0 ∧
      riskScore [7/10, 2/10, 1/10] ≠ ([7/10, 2/10, 1/10] : List ℚ).getD 0 0 ∧
      swappedLabelMap "HEALTHY" = some 2 ∧
      riskScore [7/10, 2/10, 1/10] = ([7/10, 2/10, 1/10] : List ℚ).getD 2 0) := by
  refine ⟨fun proba h => ?_, ⟨rfl, ?_⟩, rfl, ?_, rfl, ?_⟩
  · simp [riskScore, h]
  · norm_num [riskScore]
  · norm_num [riskScore]
  · norm_num [riskScore]

/-- Witness for C10 at the concrete probability vector [7/10, 2/10, 1/10]. -/
theorem C10_risk_positional_witness :
    riskScore [7/10, 2/10, 1/10] = ([7/10, 2/10, 1/10] : List ℚ).getD 2 0 :=
  C10_risk_positional.1 [7/10, 2/10, 1/10] (by simp)

/-- C4 counterexample: two CSVs with different unresolved fields (one
missing vibration, one missing temperature) produce the identical fixed
error message, so the configuration error does not name which field(s) are
unresolved. -/
theorem C4_counterexample :
    detect_column ["temperature", "current"] COMMON_VIB = none ∧
    detect_column ["temperature", "current"] COMMON_TEMP = some "temperature" ∧
    detect_column ["vibration", "current"] COMMON_VIB = some "vibration" ∧
    detect_column ["vibration", "current"] COMMON_TEMP = none ∧
    load_and_prepare ["temperature", "current"] [] (fun _ => []) =
      Except.error "Could not detect vibration/temp/current columns" ∧
    load_and_prepare ["vibration", "current"] [] (fun _ => []) =
      Except.error "Could not detect vibration/temp/current columns" :=
  ⟨rfl, rfl, rfl, rfl, rfl, rfl⟩

/-- C4 amended: when any of the vibration, temperature or current fields is
unresolved, load_and_prepare fails with the one fixed configuration error
message (which does not identify the failing field), and when all three
resolve but no label column is detected it succeeds, synthesizing labels. -/
theorem C4_config_error :
    (∀ (cols : List String) (rows : List (ℚ × ℚ × ℚ)) (colVals : String → List String),
      ((detect_column cols COMMON_VIB).isNone = true ∨
       (detect_column cols COMMON_TEMP).isNone = true ∨
       (detect_column cols COMMON_CURR).isNone = true) →
      load_and_prepare cols rows colVals =
        Except.error "Could not detect vibration/temp/current columns") ∧
    (∀ (cols : List String) (rows : List (ℚ × ℚ × ℚ)) (colVals : String → List String),
      (detect_column cols COMMON_VIB).isSome = true →
      (detect_column cols COMMON_TEMP).isSome = true →
      (detect_column cols COMMON_CURR).isSome = true →
      detect_column cols COMMON_LABEL = none →
      load_and_prepare cols rows colVals =
        Except.ok (rows, rows.map fun r => synthLabel r.1 r.2.1 r.2.2)) := by
  constructor
  · intro cols rows colVals h
    rcases h with h | h | h <;> simp [load_and_prepare, h]
  · intro cols rows colVals h1 h2 h3 h4
    obtain ⟨a, ha⟩ := Option.isSome_iff_exists.mp h1
    obtain ⟨b, hb⟩ := Option.isSome_iff_exists.mp h2
    obtain ⟨d, hd⟩ := Option.isSome_iff_exists.mp h3
    simp [load_and_prepare, ha, hb, hd, h4]

/-- Witness for C4 amended: a CSV missing vibration errors, and a CSV with
exactly the three canonical numeric columns and no label column succeeds
with synthesized labels. -/
theorem C4_config_error_witness :
    load_and_prepare ["temperature", "current"] [] (fun _ => []) =
      Except.error "Could not detect vibration/temp/current columns" ∧
    load_and_prepare ["vibration", "temperature", "current"]
        [((7 : ℚ), (30 : ℚ), (5 : ℚ))] (fun _ => []) =
      Except.ok ([((7 : ℚ), (30 : ℚ), (5 : ℚ))],
        [((7 : ℚ), (30 : ℚ), (5 : ℚ))].map fun r => synthLabel r.1 r.2.1 r.2.2) :=
  ⟨C4_config_error.1 ["temperature", "current"] [] (fun _ => []) (Or.inl (by decide)),
   C4_config_error.2 ["vibration", "temperature", "current"]
     [((7 : ℚ), (30 : ℚ), (5 : ℚ))] (fun _ => [])
     (by decide) (by decide) (by decide) (by decide)⟩

/-- C5 counterexample: with a detected label column holding the value
"weird", load_and_prepare succeeds (returning the canonicalized "WEIRD")
instead of aborting, and the training-side encoding silently turns the
unrecognized label into a missing value rather than raising an
unrecognized-label error. -/
theorem C5_counterexample :
    load_and_prepare ["vibration", "temperature", "current", "label"]
        [((1 : ℚ), (1 : ℚ), (1 : ℚ))]
        (fun n => if n = "label" then ["weird"] else []) =
      Except.ok ([((1 : ℚ), (1 : ℚ), (1 : ℚ))], ["WEIRD"]) ∧
    trainEncodeLabels ["WEIRD"] = [none] :=
  ⟨rfl, rfl⟩

/-- C5 amended: label values are uppercased and passed through the fixed
synonym table (OK, GOOD to HEALTHY; BAD, FAIL to CRITICAL), but a resulting
value outside HEALTHY, WARNING, CRITICAL is not rejected: load_and_prepare
succeeds on any label values, and the encoding maps an unrecognized value
to a missing value (none) with no unrecognized-label error raised. -/
theorem C5_label_canonicalization :
    (∀ s : String, canonLabel s =
      (if strUpper s = "OK" ∨ strUpper s = "GOOD" then "HEALTHY"
       else if strUpper s = "BAD" ∨ strUpper s = "FAIL" then "CRITICAL"
       else strUpper s)) ∧
    (∀ s : String, s ≠ "HEALTHY" → s ≠ "WARNING" → s ≠ "CRITICAL" →
      label_map s = none) ∧
    (∀ (cols : List String) (rows : List (ℚ × ℚ × ℚ)) (colVals : String → List String)
        (lc : String),
      (detect_column cols COMMON_VIB).isSome = true →
      (detect_column cols COMMON_TEMP).isSome = true →
      (detect_column cols COMMON_CURR).isSome = true →
      detect_column cols COMMON_LABEL = some lc →
      load_and_prepare cols rows colVals =
        Except.ok (rows, (colVals lc).map canonLabel)) := by
  refine ⟨fun s => ?_, fun s h1 h2 h3 => ?_, fun cols rows colVals lc h1 h2 h3 h4 => ?_⟩
  · simp only [canonLabel]
    split_ifs with g1 g2 g3 g4 <;> simp_all
  · simp [label_map, h1, h2, h3]
  · obtain ⟨a, ha⟩ := Option.isSome_iff_exists.mp h1
    obtain ⟨b, hb⟩ := Option.isSome_iff_exists.mp h2
    obtain ⟨d, hd⟩ := Option.isSome_iff_exists.mp h3
    simp [load_and_prepare, ha, hb, hd, h4]

/-- Witness for C5 amended: WEIRD encodes to a missing value, and a CSV
whose label column (detected as "health") holds "ok" and "Bad" succeeds
with the canonicalized labels. -/
theorem C5_label_canonicalization_witness :
    label_map "WEIRD" = none ∧
    load_and_prepare ["vibration", "temperature", "current", "health"] []
        (fun _ => ["ok", "Bad"]) =
      Except.ok ([], (["ok", "Bad"]).map canonLabel) :=
  ⟨C5_label_canonicalization.2.1 "WEIRD" (by decide) (by decide) (by decide),
   C5_label_canonicalization.2.2 ["vibration", "temperature", "current", "health"] []
     (fun _ => ["ok", "Bad"]) "health" (by decide) (by decide) (by decide) (by decide)⟩

theorem inv_label_map_isSome {n : Nat} (h : n < 3) : (inv_label_map n).isSome = true := by
  interval_cases n <;> rfl

/-- C7 counterexample: the text returned on a service error is not a fixed
static fallback string: it embeds the dynamic error message, so two
different service errors yield two different texts, and neither equals the
fixed no-credentials fallback. -/
theorem C7_counterexample :
    generate_hypothesis (some "k") (Except.error "error A") ≠
      generate_hypothesis (some "k") (Except.error "error B") ∧
    generate_hypothesis (some "k") (Except.error "error A") ≠ noKeyFallback := by
  constructor
  · decide
  · decide

/-- C7 amended: when credentials are absent the generator returns the fixed
static fallback covering the three fault categories; when the service call
raises it returns the error text followed by a static one-line fallback; in
either case no exception propagates, and for every three-entry probability
vector the analysis completes and appends its record (with that hypothesis
text) to the history. -/
theorem C7_fallback :
    (∀ service : Except String String,
      generate_hypothesis none service = noKeyFallback) ∧
    (∀ key e : String,
      generate_hypothesis (some key) (Except.error e) = errorFallback e) ∧
    (∀ (proba : List ℚ) (apiKey : Option String) (service : Except String String)
        (now : Nat) (v t c : ℚ) (hist : List HistoryRecord),
      proba.length = 3 →
      (inv_label_map (argmaxList proba)).isSome = true ∧
      analyzeStep proba apiKey service now v t c hist =
        some (hist ++
          [{ timestamp := now, vibration := v, temperature := t, current := c,
             status := (inv_label_map (argmaxList proba)).getD "",
             risk := riskScore proba,
             hypothesis := generate_hypothesis apiKey service }])) := by
  refine ⟨fun _ => rfl, fun _ _ => rfl,
    fun proba apiKey service now v t c hist hlen => ?_⟩
  have hne : proba ≠ [] := by
    intro h
    rw [h] at hlen
    simp at hlen
  have hlt : argmaxList proba < 3 := hlen ▸ argmaxList_lt_length proba hne
  refine ⟨inv_label_map_isSome hlt, ?_⟩
  obtain ⟨s, hs⟩ := Option.isSome_iff_exists.mp (inv_label_map_isSome hlt)
  simp [analyzeStep, hs, add_history]

/-- Witness for C7 amended at the probability vector [0, 0, 1] with no
credentials. -/
theorem C7_fallback_witness :
    (inv_label_map (argmaxList [0, 0, 1])).isSome = true ∧
    analyzeStep [0, 0, 1] none (Except.ok "t") 5 1 2 3 [] =
      some ([] ++
        [{ timestamp := 5, vibration := 1, temperature := 2, current := 3,
           status := (inv_label_map (argmaxList [0, 0, 1])).getD "",
           risk := riskScore [0, 0, 1],
           hypothesis := generate_hypothesis none (Except.ok "t") }]) :=
  C7_fallback.2.2 [0, 0, 1] none (Except.ok "t") 5 1 2 3 [] rfl
